import Mathlib

/-!
Verification of the PDF storage server (`server.js`, AWS SDK v3 variant, with
the filesystem variant's key scheme also modelled where a claim mentions it).

The HTTP handlers are shallowly embedded as pure Lean functions:
  * the S3 bucket becomes a `Store` of two association lists keyed by the full
    storage-key strings (the code only ever reads a key with the type it wrote
    there, so splitting the single S3 namespace into a blob map and a metadata
    map preserves the semantics);
  * request-scoped inputs (`req.file`, body fields, the generated UUID, the
    current time, and the scheme://host used for public URLs) become explicit
    parameters;
  * JavaScript's falsy defaulting `x || d` on strings becomes `jsOrElse`
    (both `undefined` and the empty string select the default);
  * `JSON.stringify`/`JSON.parse` of a metadata record round-trip, so the
    store holds the record itself;
  * Node's `Buffer.from(s, 'base64')` is modelled by a strict RFC 4648
    decoder (`b64decode`, defaulting to the empty buffer), which agrees with
    Node on every standard-compliant base64 string — the only inputs the
    claims exercise;
  * an individual S3 `GetObject` during the `/admin/pdfs` listing may fail
    (transient storage error or concurrent delete); the set of keys whose
    per-record read fails is the explicit `failedKeys` parameter, and a
    metadata read failure during `GET /pdf/:id` is the `metaReadFails` flag.
-/

/-- The sidecar metadata record built by both upload handlers
(`server.js` lines 77-84 and 145-152). `uploadDate` is a timestamp. -/
structure Metadata where
  id : String
  originalName : String
  buyerName : String
  uploadDate : Nat
  fileSize : Nat
  contentType : String
deriving DecidableEq

/-- A multipart upload as multer delivers it (`req.file`): the raw bytes,
the reported size, and the client-declared MIME type. Bytes are `Nat`s
(< 256 in every theorem that needs it). -/
structure UploadedFile where
  buffer : List Nat
  size : Nat
  mimetype : String
deriving DecidableEq

/-- One entry of the `/admin/pdfs` listing: a metadata record with the
injected public `url` field (`server.js` lines 305-308). -/
structure PdfEntry where
  m : Metadata
  url : String
deriving DecidableEq

/-- The JSON bodies the server can answer with. -/
inductive RespBody where
  | emptyBody
  | errorMsg (msg : String)
  | uploadOk (url : String) (id : String) (m : Metadata)
  | pdfFile (bytes : List Nat) (contentType : String) (disposition : String)
  | metaJson (m : Metadata)
  | listing (pdfs : List PdfEntry) (total : Nat)
  | deleteOk (msg : String) (id : String)
deriving DecidableEq

/-- An HTTP response: status code and body. For `pdfFile` the
`Content-Type` and `Content-Disposition` headers are carried in the body
variant; `Content-Length` is determined by the bytes. -/
structure Response where
  status : Nat
  body : RespBody
deriving DecidableEq

/-- The S3 bucket state: blobs under `pdfs/<id>.pdf` keys and metadata
records under `metadata/<id>.json` keys. Writes cons, so the most recent
write under a key wins on lookup. -/
structure Store where
  blobs : List (String × List Nat)
  metas : List (String × Metadata)
deriving DecidableEq

def emptyStore : Store := ⟨[], []⟩

/-- First-match association-list lookup: the model of `GetObject` on a key
(`none` is S3's `NoSuchKey`). -/
def slookup {α : Type} : List (String × α) → String → Option α
  | [], _ => none
  | (k, v) :: rest, key => if k = key then some v else slookup rest key

/-- Remove every binding of a key: the model of `DeleteObject` (which on S3
succeeds whether or not the key exists). -/
def serase {α : Type} : List (String × α) → String → List (String × α)
  | [], _ => []
  | (k, v) :: rest, key =>
      if k = key then serase rest key else (k, v) :: serase rest key

/-- Blob storage key, `server.js` line 73: `pdfs/${uniqueId}.pdf`. -/
def pdfKeyOf (id : String) : String := "pdfs/" ++ id ++ ".pdf"

/-- Metadata storage key, `server.js` line 74: `metadata/${uniqueId}.json`. -/
def metadataKeyOf (id : String) : String := "metadata/" ++ id ++ ".json"

/-- Blob file name in the filesystem variant (`part_000` line 47):
`${uniqueId}.pdf`. -/
def fsPdfFileOf (id : String) : String := id ++ ".pdf"

/-- Metadata file name in the filesystem variant (`part_000` line 63):
`${uniqueId}.json`. -/
def fsMetaFileOf (id : String) : String := id ++ ".json"

/-- JavaScript `x || d` for an optional string field: `undefined` and the
empty string are falsy and select the default. -/
def jsOrElse : Option String → String → String
  | none, d => d
  | some s, d => if s = "" then d else s

/-! ### Base64

`POST /upload-pdf-base64` decodes its payload with
`Buffer.from(base64Data, 'base64')` after stripping an optional
`data:application/pdf;base64,` data-URL marker (`server.js` lines 136-137).
The decoder below is the standard RFC 4648 base64 decoding; it agrees with
Node's on every standard-compliant input. The matching encoder models the
client-side `base64(B)` the claims speak about. -/

/-- The base64 alphabet, sextet value to character. -/
def b64chars : List Char :=
  "ABCDEFGHIJKLMNOPQRSTUVWXYZabcdefghijklmnopqrstuvwxyz0123456789+/".toList

/-- Character for a sextet value (< 64). -/
def b64char (n : Nat) : Char := b64chars.getD n 'A'

/-- Index of a character in a character list. -/
def findIdx : List Char → Char → Option Nat
  | [], _ => none
  | x :: xs, c => if x = c then some 0 else (findIdx xs c).map (· + 1)

/-- Sextet value of a base64 character, `none` for characters outside the
alphabet. -/
def b64index (c : Char) : Option Nat := findIdx b64chars c

/-- RFC 4648 base64 encoding of a byte sequence, with `=` padding. -/
def b64encode : List Nat → List Char
  | [] => []
  | [a] => [b64char (a / 4), b64char (a % 4 * 16), '=', '=']
  | [a, b] => [b64char (a / 4), b64char (a % 4 * 16 + b / 16), b64char (b % 16 * 4), '=']
  | a :: b :: c :: rest =>
      b64char (a / 4) :: b64char (a % 4 * 16 + b / 16) ::
      b64char (b % 16 * 4 + c / 64) :: b64char (c % 64) :: b64encode rest

/-- RFC 4648 base64 decoding: four characters at a time, honouring `=`
padding in the final quartet only. -/
def b64decode : List Char → Option (List Nat)
  | [] => some []
  | c0 :: c1 :: c2 :: c3 :: rest =>
    match b64index c0, b64index c1 with
    | some s0, some s1 =>
      if c2 = '=' then
        if c3 = '=' then
          if rest = [] then some [s0 * 4 + s1 / 16] else none
        else none
      else
        match b64index c2 with
        | some s2 =>
          if c3 = '=' then
            if rest = [] then some [s0 * 4 + s1 / 16, s1 % 16 * 16 + s2 / 4] else none
          else
            match b64index c3 with
            | some s3 =>
                (b64decode rest).map
                  (fun r => (s0 * 4 + s1 / 16) :: (s1 % 16 * 16 + s2 / 4) ::
                    (s2 % 4 * 64 + s3) :: r)
            | none => none
        | none => none
    | _, _ => none
  | _ => none

/-- `Buffer.from(s, 'base64')` as the handler uses it, restricted to the
standard-compliant inputs the claims exercise (defaults to the empty buffer
elsewhere; Node's decoder is lenient and never throws). -/
def jsB64Decode (s : List Char) : List Nat := (b64decode s).getD []

/-- The data-URL marker the base64 endpoint strips:
`data:application/pdf;base64,`. -/
def dataUrlTag : List Char := "data:application/pdf;base64,".toList

/-- Match `p` against the front of `s`; on success return the remainder. -/
def stripRec : List Char → List Char → Option (List Char)
  | [], s => some s
  | _ :: _, [] => none
  | p :: ps, c :: cs => if p = c then stripRec ps cs else none

/-- `pdfData.replace(/^data:application\/pdf;base64,/, '')`
(`server.js` line 136): drop one leading data-URL marker if present,
otherwise leave the string unchanged. -/
def jsStripData (s : List Char) : List Char := (stripRec dataUrlTag s).getD s

/-! ### Request handlers -/

/-- `POST /upload-pdf` (`server.js` lines 65-124). Parameters supply the
request-scoped data: the optional multipart file, the two optional form
fields, the generated UUID, the current time, and the scheme://host the
public URL is built from. Returns the response and the new store state. -/
def uploadPdf (st : Store) (file : Option UploadedFile)
    (originalName buyerName : Option String)
    (uniqueId : String) (now : Nat) (baseUrl : String) : Response × Store :=
  match file with
  | none => (⟨400, .errorMsg "No PDF file provided"⟩, st)
  | some f =>
    let metadata : Metadata :=
      { id := uniqueId
        originalName := jsOrElse originalName "purchase-agreement.pdf"
        buyerName := jsOrElse buyerName "Unknown"
        uploadDate := now
        fileSize := f.size
        contentType := f.mimetype }
    let st' : Store :=
      { blobs := (pdfKeyOf uniqueId, f.buffer) :: st.blobs
        metas := (metadataKeyOf uniqueId, metadata) :: st.metas }
    (⟨200, .uploadOk (baseUrl ++ "/pdf/" ++ uniqueId) uniqueId metadata⟩, st')

/-- `POST /upload-pdf-base64` (`server.js` lines 127-192). `pdfData` is the
body field as a character string; `if (!pdfData)` rejects both a missing
field and the empty string. -/
def uploadPdfBase64 (st : Store) (pdfData : Option (List Char))
    (buyerName originalName : Option String)
    (uniqueId : String) (now : Nat) (baseUrl : String) : Response × Store :=
  match pdfData with
  | none => (⟨400, .errorMsg "No PDF data provided"⟩, st)
  | some s =>
    if s = [] then (⟨400, .errorMsg "No PDF data provided"⟩, st)
    else
      let buffer := jsB64Decode (jsStripData s)
      let metadata : Metadata :=
        { id := uniqueId
          originalName := jsOrElse originalName "purchase-agreement.pdf"
          buyerName := jsOrElse buyerName "Unknown"
          uploadDate := now
          fileSize := buffer.length
          contentType := "application/pdf" }
      let st' : Store :=
        { blobs := (pdfKeyOf uniqueId, buffer) :: st.blobs
          metas := (metadataKeyOf uniqueId, metadata) :: st.metas }
      (⟨200, .uploadOk (baseUrl ++ "/pdf/" ++ uniqueId) uniqueId metadata⟩, st')

/-- `GET /pdf/:id` (`server.js` lines 195-250). A missing blob is S3's
`NoSuchKey` and yields 404; the metadata fetch is wrapped in its own
try/catch, so a missing record — or any metadata read failure, modelled by
`metaReadFails` — only forfeits the stored display filename
(`metadata.originalName || 'document.pdf'`). -/
def getPdf (st : Store) (id : String) (metaReadFails : Bool) : Response :=
  match slookup st.blobs (pdfKeyOf id) with
  | none => ⟨404, .errorMsg "PDF not found"⟩
  | some bytes =>
    let filename :=
      match (if metaReadFails then none else slookup st.metas (metadataKeyOf id)) with
      | some m => if m.originalName = "" then "document.pdf" else m.originalName
      | none => "document.pdf"
    ⟨200, .pdfFile bytes "application/pdf" ("inline; filename=\"" ++ filename ++ "\"")⟩

/-- `GET /pdf/:id/info` (`server.js` lines 253-280). -/
def getPdfInfo (st : Store) (id : String) : Response :=
  match slookup st.metas (metadataKeyOf id) with
  | none => ⟨404, .errorMsg "PDF metadata not found"⟩
  | some m => ⟨200, .metaJson m⟩

/-- The `/admin/pdfs` ordering: the comparator
`(a, b) => new Date(b.uploadDate) - new Date(a.uploadDate)` sorts by upload
date, newest first. -/
def dateGe (a b : PdfEntry) : Prop := b.m.uploadDate ≤ a.m.uploadDate

instance : DecidableRel dateGe := fun _ _ => Nat.decLe _ _

instance : IsTotal PdfEntry dateGe :=
  ⟨fun a b => Nat.le_total b.m.uploadDate a.m.uploadDate⟩

instance : IsTrans PdfEntry dateGe :=
  ⟨fun _ _ _ hab hbc => Nat.le_trans hbc hab⟩

/-- `GET /admin/pdfs` (`server.js` lines 283-327). The handler lists the
`metadata/` keys, fetches each record, injects the public `url`, and —
per-record — catches any fetch failure, maps it to `null`, and filters it
out. `failedKeys` is the set of keys whose individual fetch fails on this
request. The survivors are sorted by upload date descending. -/
def listPdfs (st : Store) (failedKeys : List String) (baseUrl : String) : Response :=
  let fetched := st.metas.filterMap fun kv =>
    if kv.1 ∈ failedKeys then none
    else some ({ m := kv.2, url := baseUrl ++ "/pdf/" ++ kv.2.id } : PdfEntry)
  let sorted := List.insertionSort dateGe fetched
  ⟨200, .listing sorted sorted.length⟩

/-- `DELETE /admin/pdf/:id` (`server.js` lines 329-349). S3 `DeleteObject`
succeeds whether or not the key exists, so the handler always reports
success; there is no 404 branch. -/
def deletePdf (st : Store) (id : String) : Response × Store :=
  (⟨200, .deleteOk "PDF deleted successfully" id⟩,
   { blobs := serase st.blobs (pdfKeyOf id)
     metas := serase st.metas (metadataKeyOf id) })

/-! ### Store and base64 lemmas -/

theorem slookup_cons_self {α : Type} (k : String) (v : α) (l : List (String × α)) :
    slookup ((k, v) :: l) k = some v := by
  simp [slookup]

theorem slookup_serase {α : Type} (l : List (String × α)) (k : String) :
    slookup (serase l k) k = none := by
  induction l with
  | nil => rfl
  | cons p rest ih =>
      obtain ⟨pk, pv⟩ := p
      by_cases h : pk = k
      · simp [serase, h, ih]
      · simp [serase, slookup, h, ih]

theorem b64_tbl_idx : ∀ n < 64, b64index (b64char n) = some n := by decide

theorem b64_tbl_ne_pad : ∀ n < 64, ¬(b64char n = '=') := by decide

theorem b64decode_encode : ∀ B : List Nat, (∀ b ∈ B, b < 256) → b64decode (b64encode B) = some B := by
  intro B
  induction B using b64encode.induct with
  | case1 => intro _; rfl
  | case2 a =>
      intro hB
      have ha : a < 256 := hB a (by simp)
      have h0 : b64index (b64char (a / 4)) = some (a / 4) := b64_tbl_idx _ (by omega)
      have h1 : b64index (b64char (a % 4 * 16)) = some (a % 4 * 16) := b64_tbl_idx _ (by omega)
      simp [b64encode, b64decode, h0, h1]
      omega
  | case3 a b =>
      intro hB
      have ha : a < 256 := hB a (by simp)
      have hb : b < 256 := hB b (by simp)
      have h0 : b64index (b64char (a / 4)) = some (a / 4) := b64_tbl_idx _ (by omega)
      have h1 : b64index (b64char (a % 4 * 16 + b / 16)) = some (a % 4 * 16 + b / 16) :=
        b64_tbl_idx _ (by omega)
      have h2 : b64index (b64char (b % 16 * 4)) = some (b % 16 * 4) := b64_tbl_idx _ (by omega)
      have hn2 : ¬(b64char (b % 16 * 4) = '=') := b64_tbl_ne_pad _ (by omega)
      simp [b64encode, b64decode, h0, h1, h2, hn2]
      omega
  | case4 a b c rest ih =>
      intro hB
      have ha : a < 256 := hB a (by simp)
      have hb : b < 256 := hB b (by simp)
      have hc : c < 256 := hB c (by simp)
      have hrest : ∀ x ∈ rest, x < 256 := fun x hx => hB x (by simp [hx])
      have h0 : b64index (b64char (a / 4)) = some (a / 4) := b64_tbl_idx _ (by omega)
      have h1 : b64index (b64char (a % 4 * 16 + b / 16)) = some (a % 4 * 16 + b / 16) :=
        b64_tbl_idx _ (by omega)
      have h2 : b64index (b64char (b % 16 * 4 + c / 64)) = some (b % 16 * 4 + c / 64) :=
        b64_tbl_idx _ (by omega)
      have h3 : b64index (b64char (c % 64)) = some (c % 64) := b64_tbl_idx _ (by omega)
      have hn2 : ¬(b64char (b % 16 * 4 + c / 64) = '=') := b64_tbl_ne_pad _ (by omega)
      have hn3 : ¬(b64char (c % 64) = '=') := b64_tbl_ne_pad _ (by omega)
      simp [b64encode, b64decode, h0, h1, h2, h3, hn2, hn3, ih hrest]
      refine ⟨by omega, by omega, by omega⟩

theorem b64char_mem : ∀ n : Nat, b64char n ∈ b64chars := by
  intro n
  unfold b64char
  rcases Nat.lt_or_ge n b64chars.length with h | h
  · rw [List.getD_eq_getElem b64chars 'A' h]
    exact List.getElem_mem h
  · rw [List.getD_eq_default b64chars 'A' h]
    decide

theorem b64encode_mem : ∀ B : List Nat, ∀ x ∈ b64encode B, x ∈ b64chars ∨ x = '=' := by
  intro B
  induction B using b64encode.induct with
  | case1 => intro x hx; simp [b64encode] at hx
  | case2 a =>
      intro x hx
      simp only [b64encode, List.mem_cons, List.not_mem_nil, or_false] at hx
      rcases hx with h | h | h | h <;> subst h <;>
        first | exact Or.inl (b64char_mem _) | exact Or.inr rfl
  | case3 a b =>
      intro x hx
      simp only [b64encode, List.mem_cons, List.not_mem_nil, or_false] at hx
      rcases hx with h | h | h | h <;> subst h <;>
        first | exact Or.inl (b64char_mem _) | exact Or.inr rfl
  | case4 a b c rest ih =>
      intro x hx
      simp only [b64encode, List.mem_cons] at hx
      rcases hx with h | h | h | h | h
      · subst h; exact Or.inl (b64char_mem _)
      · subst h; exact Or.inl (b64char_mem _)
      · subst h; exact Or.inl (b64char_mem _)
      · subst h; exact Or.inl (b64char_mem _)
      · exact ih x h

theorem stripRec_append : ∀ p t : List Char, stripRec p (p ++ t) = some t := by
  intro p
  induction p with
  | nil => intro t; rfl
  | cons x xs ih => intro t; simp [stripRec, ih]

theorem stripRec_some : ∀ p s t : List Char, stripRec p s = some t → s = p ++ t := by
  intro p
  induction p with
  | nil => intro s t h; simp [stripRec] at h; simp [h]
  | cons x xs ih =>
      intro s t h
      cases s with
      | nil => simp [stripRec] at h
      | cons y ys =>
          simp only [stripRec] at h
          by_cases hxy : x = y
          · subst hxy
            simp at h
            have := ih ys t h
            simp [this]
          · simp [hxy] at h

theorem jsStripData_encode (B : List Nat) : jsStripData (b64encode B) = b64encode B := by
  cases h : stripRec dataUrlTag (b64encode B) with
  | none => simp [jsStripData, h]
  | some t =>
      exfalso
      have heq : b64encode B = dataUrlTag ++ t := stripRec_some _ _ _ h
      have hcolon : ':' ∈ b64encode B := by
        rw [heq]
        exact List.mem_append_left _ (by decide)
      rcases b64encode_mem B ':' hcolon with hmem | hpad
      · exact absurd hmem (by decide)
      · exact absurd hpad (by decide)

theorem jsStripData_tagged (s : List Char) : jsStripData (dataUrlTag ++ s) = s := by
  simp [jsStripData, stripRec_append]

/-- `b64encode` of a nonempty byte list is nonempty. -/
theorem b64encode_ne_nil : ∀ B : List Nat, ¬(B = []) → ¬(b64encode B = []) := by
  intro B hB
  match B with
  | [] => exact absurd rfl hB
  | [a] => simp [b64encode]
  | [a, b] => simp [b64encode]
  | a :: b :: c :: rest => simp [b64encode]

/-- Projecting the metadata out of the fetched-and-url-injected listing
entries gives exactly the metadata records that survived the per-record
fetch. -/
theorem listEntries_map_m (l : List (String × Metadata)) (fails : List String) (base : String) :
    ((l.filterMap fun kv =>
        if kv.1 ∈ fails then none
        else some ({ m := kv.2, url := base ++ "/pdf/" ++ kv.2.id } : PdfEntry)).map PdfEntry.m)
      = l.filterMap fun kv => if kv.1 ∈ fails then none else some kv.2 := by
  induction l with
  | nil => rfl
  | cons kv rest ih =>
      by_cases h : kv.1 ∈ fails <;> simp [List.filterMap_cons, h, ih]

/-- With no failed keys the surviving-records filter keeps everything. -/
theorem filterMapSnd (l : List (String × Metadata)) :
    (l.filterMap fun kv => if kv.1 ∈ ([] : List String) then none else some kv.2)
      = l.map Prod.snd := by
  induction l with
  | nil => rfl
  | cons kv rest ih =>
      simp only [List.filterMap_cons, List.map_cons, List.not_mem_nil, if_neg (fun h => h)]
        at ih ⊢
      rw [ih]

/-! ### The claims -/

/-- Claim C1, counterexample: the claim fails when the supplied
`buyerName` form field is the empty string. Uploading with
`buyerName = ""` succeeds, but `GET /pdf/id1/info` then reports
`buyerName = "Unknown"` (the `req.body.buyerName || 'Unknown'` defaulting
treats the present-but-empty field as absent), not the supplied `""`. -/
theorem c1_roundtrip_counterexample :
    getPdfInfo (uploadPdf emptyStore (some ⟨[37], 1, "application/pdf"⟩)
        (some "contract.pdf") (some "") "id1" 5 "http://h").2 "id1"
      = ⟨200, .metaJson ⟨"id1", "contract.pdf", "Unknown", 5, 1, "application/pdf"⟩⟩ ∧
    ¬(("Unknown" : String) = "") := by
  refine ⟨by decide, by decide⟩

/-- Claim C1, amended: for every upload of bytes with form fields
`originalName = N` and `buyerName = BY` where `BY` is nonempty, through
either endpoint — `POST /upload-pdf` with a multipart file `f`, or
`POST /upload-pdf-base64` with `base64(B)` for nonempty `B` (an empty `B`
encodes to the empty string, which the endpoint rejects, so only nonempty
`B` can succeed there) — a subsequent `GET /pdf/<id>` returns status 200
with exactly the uploaded bytes and a `Content-Disposition` containing
`N`, and `GET /pdf/<id>/info` returns a metadata record whose `buyerName`
equals `BY`. (An empty `BY` is defaulted to `"Unknown"` by the handler's
`|| 'Unknown'`.) -/
theorem c1_roundtrip_amended (st : Store) (f : UploadedFile) (B : List Nat) (N BY : String)
    (u : String) (now : Nat) (base : String) (hBY : ¬(BY = ""))
    (hB : ∀ b ∈ B, b < 256) (hne : ¬(B = [])) :
    (∃ p q, getPdf (uploadPdf st (some f) (some N) (some BY) u now base).2 u false =
      ⟨200, .pdfFile f.buffer "application/pdf" (p ++ N ++ q)⟩) ∧
    (∃ m, getPdfInfo (uploadPdf st (some f) (some N) (some BY) u now base).2 u =
      ⟨200, .metaJson m⟩ ∧ m.buyerName = BY) ∧
    (∃ p q, getPdf (uploadPdfBase64 st (some (b64encode B)) (some BY) (some N) u now base).2
        u false = ⟨200, .pdfFile B "application/pdf" (p ++ N ++ q)⟩) ∧
    (∃ m, getPdfInfo (uploadPdfBase64 st (some (b64encode B)) (some BY) (some N) u now base).2
        u = ⟨200, .metaJson m⟩ ∧ m.buyerName = BY) := by
  have hdec : jsB64Decode (jsStripData (b64encode B)) = B := by
    rw [jsStripData_encode, jsB64Decode, b64decode_encode B hB]
    rfl
  have henc : ¬(b64encode B = []) := b64encode_ne_nil B hne
  refine ⟨?_, ?_, ?_, ?_⟩
  · by_cases hN : N = ""
    · subst hN
      refine ⟨"inline; filename=\"purchase-agreement.pdf", "\"", ?_⟩
      simp [getPdf, uploadPdf, slookup, jsOrElse]
      rfl
    · refine ⟨"inline; filename=\"", "\"", ?_⟩
      simp [getPdf, uploadPdf, slookup, jsOrElse, hN]
  · refine ⟨⟨u, jsOrElse (some N) "purchase-agreement.pdf", BY, now, f.size, f.mimetype⟩,
      ?_, rfl⟩
    simp [getPdfInfo, uploadPdf, slookup, jsOrElse, hBY]
  · by_cases hN : N = ""
    · subst hN
      refine ⟨"inline; filename=\"purchase-agreement.pdf", "\"", ?_⟩
      simp [getPdf, uploadPdfBase64, henc, hdec, slookup, jsOrElse]
      rfl
    · refine ⟨"inline; filename=\"", "\"", ?_⟩
      simp [getPdf, uploadPdfBase64, henc, hdec, slookup, jsOrElse, hN]
  · refine ⟨⟨u, jsOrElse (some N) "purchase-agreement.pdf", BY, now, B.length,
      "application/pdf"⟩, ?_, rfl⟩
    simp [getPdfInfo, uploadPdfBase64, henc, hdec, slookup, jsOrElse, hBY]

/-- Claim C1, witness: the amended round trip at a concrete multipart
upload and a concrete base64 upload. -/
theorem c1_roundtrip_witness :
    (∃ p q, getPdf (uploadPdf emptyStore (some ⟨[1], 1, "application/pdf"⟩)
        (some "n.pdf") (some "Bob") "u1" 3 "http://h").2 "u1" false =
      ⟨200, .pdfFile [1] "application/pdf" (p ++ "n.pdf" ++ q)⟩) ∧
    (∃ m, getPdfInfo (uploadPdf emptyStore (some ⟨[1], 1, "application/pdf"⟩)
        (some "n.pdf") (some "Bob") "u1" 3 "http://h").2 "u1" =
      ⟨200, .metaJson m⟩ ∧ m.buyerName = "Bob") ∧
    (∃ p q, getPdf (uploadPdfBase64 emptyStore (some (b64encode [2, 3]))
        (some "Bob") (some "n.pdf") "u1" 3 "http://h").2 "u1" false =
      ⟨200, .pdfFile [2, 3] "application/pdf" (p ++ "n.pdf" ++ q)⟩) ∧
    (∃ m, getPdfInfo (uploadPdfBase64 emptyStore (some (b64encode [2, 3]))
        (some "Bob") (some "n.pdf") "u1" 3 "http://h").2 "u1" =
      ⟨200, .metaJson m⟩ ∧ m.buyerName = "Bob") :=
  c1_roundtrip_amended emptyStore ⟨[1], 1, "application/pdf"⟩ [2, 3] "n.pdf" "Bob" "u1" 3
    "http://h" (by decide) (by decide) (by decide)

/-- Claim C2: after `DELETE /admin/pdf/<id>`, both the blob key and the
metadata key are removed from the store, and every subsequent
`GET /pdf/<id>` and `GET /pdf/<id>/info` returns 404. -/
theorem c2_delete_then_404 (st : Store) (id : String) (mf : Bool) :
    slookup (deletePdf st id).2.blobs (pdfKeyOf id) = none ∧
    slookup (deletePdf st id).2.metas (metadataKeyOf id) = none ∧
    getPdf (deletePdf st id).2 id mf = ⟨404, .errorMsg "PDF not found"⟩ ∧
    getPdfInfo (deletePdf st id).2 id = ⟨404, .errorMsg "PDF metadata not found"⟩ := by
  refine ⟨by simp [deletePdf, slookup_serase], by simp [deletePdf, slookup_serase], ?_, ?_⟩
  · cases mf <;> simp [getPdf, deletePdf, slookup_serase]
  · simp [getPdfInfo, deletePdf, slookup_serase]

/-- Claim C3: if the blob for an id exists but its metadata record is
absent — or the metadata read fails — `GET /pdf/<id>` still returns the
blob bytes with status 200 and `Content-Disposition` filename exactly
`document.pdf`. -/
theorem c3_missing_metadata_fallback (st : Store) (id : String) (bytes : List Nat)
    (hblob : slookup st.blobs (pdfKeyOf id) = some bytes) :
    (slookup st.metas (metadataKeyOf id) = none →
      getPdf st id false = ⟨200, .pdfFile bytes "application/pdf"
        "inline; filename=\"document.pdf\""⟩) ∧
    getPdf st id true = ⟨200, .pdfFile bytes "application/pdf"
      "inline; filename=\"document.pdf\""⟩ := by
  constructor
  · intro hm
    simp only [getPdf, hblob, hm, Bool.false_eq_true, if_false]
    rfl
  · simp only [getPdf, hblob, if_true]
    rfl

/-- Claim C3, witness: the metadata-less fallback at a concrete store
holding one blob and no metadata. -/
theorem c3_missing_metadata_witness :
    (slookup ({ blobs := [("pdfs/a.pdf", [9])], metas := [] } : Store).metas
        (metadataKeyOf "a") = none →
      getPdf { blobs := [("pdfs/a.pdf", [9])], metas := [] } "a" false =
        ⟨200, .pdfFile [9] "application/pdf" "inline; filename=\"document.pdf\""⟩) ∧
    getPdf { blobs := [("pdfs/a.pdf", [9])], metas := [] } "a" true =
      ⟨200, .pdfFile [9] "application/pdf" "inline; filename=\"document.pdf\""⟩ :=
  c3_missing_metadata_fallback _ "a" [9] (by decide)

/-- Claim C4, counterexample: the multipart upload handler persists
`contentType: req.file.mimetype` — the client-declared type — so a
multipart upload declared as `text/plain` is persisted with
`contentType = "text/plain"`, not the fixed PDF media type the claim
demands. -/
theorem c4_contentType_counterexample :
    slookup (uploadPdf emptyStore (some ⟨[1], 1, "text/plain"⟩) none none "u" 0 "h").2.metas
        (metadataKeyOf "u")
      = some ⟨"u", "purchase-agreement.pdf", "Unknown", 0, 1, "text/plain"⟩ ∧
    ¬(("text/plain" : String) = "application/pdf") :=
  ⟨by decide, by decide⟩

/-- Claim C4, amended: the base64 upload endpoint persists the fixed
`application/pdf` content type, but the multipart endpoint persists the
client-declared `req.file.mimetype`, whatever it is. -/
theorem c4_contentType_amended (st : Store) (f : UploadedFile) (oName bName : Option String)
    (u : String) (now : Nat) (base : String) (s : List Char) (hs : ¬(s = [])) :
    (∃ m, slookup (uploadPdf st (some f) oName bName u now base).2.metas (metadataKeyOf u)
        = some m ∧ m.contentType = f.mimetype) ∧
    (∃ m, slookup (uploadPdfBase64 st (some s) bName oName u now base).2.metas (metadataKeyOf u)
        = some m ∧ m.contentType = "application/pdf") := by
  constructor
  · refine ⟨⟨u, jsOrElse oName "purchase-agreement.pdf", jsOrElse bName "Unknown", now,
      f.size, f.mimetype⟩, ?_, rfl⟩
    simp [uploadPdf, slookup]
  · refine ⟨⟨u, jsOrElse oName "purchase-agreement.pdf", jsOrElse bName "Unknown", now,
      (jsB64Decode (jsStripData s)).length, "application/pdf"⟩, ?_, rfl⟩
    simp [uploadPdfBase64, hs, slookup]

/-- Claim C4, witness: the amended content-type behaviour at a concrete
multipart upload declared `text/plain` and a concrete base64 upload. -/
theorem c4_contentType_witness :
    (∃ m, slookup (uploadPdf emptyStore (some ⟨[1], 1, "text/plain"⟩) none none "u" 0 "h").2.metas
        (metadataKeyOf "u") = some m ∧ m.contentType = "text/plain") ∧
    (∃ m, slookup (uploadPdfBase64 emptyStore (some ['A', 'B', 'C', 'D']) none none "u" 0 "h").2.metas
        (metadataKeyOf "u") = some m ∧ m.contentType = "application/pdf") :=
  c4_contentType_amended emptyStore ⟨[1], 1, "text/plain"⟩ none none "u" 0 "h"
    ['A', 'B', 'C', 'D'] (by decide)

/-- Claim C5, counterexample: in `GET /admin/pdfs` a failed individual
metadata read is NOT reported to the caller. With one stored record whose
per-record fetch fails, the endpoint answers 200 with an empty listing and
`total = 0` — the failure is silently dropped, where the claim demands it
be reported. -/
theorem c5_listing_error_counterexample :
    listPdfs ⟨[], [("metadata/a.json", ⟨"a", "n", "b", 1, 1, "application/pdf"⟩)]⟩
      ["metadata/a.json"] "h" = ⟨200, .listing [] 0⟩ ∧
    ¬((200 : Nat) = 500) :=
  ⟨by decide, by decide⟩

/-- Claim C5, amended: errors are reported synchronously in the response
except for two deliberate degradations: missing metadata during
`GET /pdf/<id>` falls back to the default filename, and `GET /admin/pdfs`
silently drops every record whose individual metadata read fails,
reporting success (status 200) on exactly the surviving records. -/
theorem c5_listing_error_amended (st : Store) (fails : List String) (base : String) :
    ∃ pdfs, listPdfs st fails base = ⟨200, .listing pdfs pdfs.length⟩ ∧
      List.Perm (pdfs.map PdfEntry.m)
        (st.metas.filterMap fun kv => if kv.1 ∈ fails then none else some kv.2) := by
  refine ⟨_, rfl, ?_⟩
  exact (listEntries_map_m st.metas fails base) ▸
    ((List.perm_insertionSort dateGe _).map PdfEntry.m)

/-- Claim C6, counterexample: for the empty byte sequence the two upload
paths are not equivalent. `base64([]) = ""`, and `if (!pdfData)` treats
the empty string as missing, so `POST /upload-pdf-base64` answers 400 and
persists nothing, while `POST /upload-pdf` with an empty file persists an
empty blob. -/
theorem c6_base64_equiv_counterexample :
    b64encode [] = [] ∧
    uploadPdfBase64 emptyStore (some (b64encode [])) none none "u" 0 "h"
      = (⟨400, .errorMsg "No PDF data provided"⟩, emptyStore) ∧
    slookup (uploadPdf emptyStore (some ⟨[], 0, "application/pdf"⟩) none none "u" 0 "h").2.blobs
      (pdfKeyOf "u") = some [] :=
  ⟨rfl, by decide, by decide⟩

/-- Claim C6, amended: for every nonempty byte sequence `B` (with bytes
< 256), `POST /upload-pdf-base64` given `base64(B)` — with or without the
leading `data:application/pdf;base64,` marker, which is stripped before
decoding — persists a blob byte-identical to the one `POST /upload-pdf`
persists when given `B` directly. (For empty `B` the base64 endpoint
rejects the empty string as missing data.) -/
theorem c6_base64_equiv_amended (st : Store) (B : List Nat) (mt : String)
    (oName bName : Option String) (u : String) (now : Nat) (base : String)
    (hB : ∀ b ∈ B, b < 256) (hne : ¬(B = [])) :
    slookup (uploadPdf st (some ⟨B, B.length, mt⟩) oName bName u now base).2.blobs
      (pdfKeyOf u) = some B ∧
    slookup (uploadPdfBase64 st (some (b64encode B)) bName oName u now base).2.blobs
      (pdfKeyOf u) = some B ∧
    slookup (uploadPdfBase64 st (some (dataUrlTag ++ b64encode B)) bName oName u now base).2.blobs
      (pdfKeyOf u) = some B := by
  have hdec : jsB64Decode (jsStripData (b64encode B)) = B := by
    rw [jsStripData_encode, jsB64Decode, b64decode_encode B hB]
    rfl
  have hdec2 : jsB64Decode (jsStripData (dataUrlTag ++ b64encode B)) = B := by
    rw [jsStripData_tagged, jsB64Decode, b64decode_encode B hB]
    rfl
  have henc : ¬(b64encode B = []) := b64encode_ne_nil B hne
  have htag : ¬(dataUrlTag ++ b64encode B = []) := by
    intro h
    rcases List.append_eq_nil.mp h with ⟨h1, _⟩
    exact absurd h1 (by decide)
  refine ⟨by simp [uploadPdf, slookup], ?_, ?_⟩
  · simp [uploadPdfBase64, henc, hdec, slookup]
  · simp [uploadPdfBase64, htag, hdec2, slookup]

/-- Claim C6, witness: the amended equivalence at the concrete bytes
`[1, 2, 3]`. -/
theorem c6_base64_equiv_witness :
    slookup (uploadPdf emptyStore (some ⟨[1, 2, 3], 3, "application/pdf"⟩)
        none none "u" 0 "h").2.blobs (pdfKeyOf "u") = some [1, 2, 3] ∧
    slookup (uploadPdfBase64 emptyStore (some (b64encode [1, 2, 3]))
        none none "u" 0 "h").2.blobs (pdfKeyOf "u") = some [1, 2, 3] ∧
    slookup (uploadPdfBase64 emptyStore (some (dataUrlTag ++ b64encode [1, 2, 3]))
        none none "u" 0 "h").2.blobs (pdfKeyOf "u") = some [1, 2, 3] :=
  c6_base64_equiv_amended emptyStore [1, 2, 3] "application/pdf" none none "u" 0 "h"
    (by decide) (by decide)

/-- Claim C7: for every store state, `GET /admin/pdfs` returns status 200
with the metadata records sorted by `uploadDate` descending and `total`
equal to the number of returned records; in particular after three uploads
at times 1 < 2 < 3 the order is t3, t2, t1. -/
theorem c7_listing_sorted :
    (∀ (st : Store) (base : String), ∃ pdfs,
        listPdfs st [] base = ⟨200, .listing pdfs pdfs.length⟩ ∧
        List.Sorted dateGe pdfs ∧
        List.Perm (pdfs.map PdfEntry.m) (st.metas.map Prod.snd)) ∧
    listPdfs (uploadPdf (uploadPdf (uploadPdf emptyStore
          (some ⟨[1], 1, "application/pdf"⟩) (some "n1") (some "b1") "a" 1 "h").2
          (some ⟨[2], 1, "application/pdf"⟩) (some "n2") (some "b2") "b" 2 "h").2
          (some ⟨[3], 1, "application/pdf"⟩) (some "n3") (some "b3") "c" 3 "h").2 [] "h"
      = ⟨200, .listing
          [⟨⟨"c", "n3", "b3", 3, 1, "application/pdf"⟩, "h/pdf/c"⟩,
           ⟨⟨"b", "n2", "b2", 2, 1, "application/pdf"⟩, "h/pdf/b"⟩,
           ⟨⟨"a", "n1", "b1", 1, 1, "application/pdf"⟩, "h/pdf/a"⟩] 3⟩ := by
  constructor
  · intro st base
    refine ⟨_, rfl, List.sorted_insertionSort dateGe _, ?_⟩
    have h1 := (listEntries_map_m st.metas [] base) ▸
      ((List.perm_insertionSort dateGe _).map PdfEntry.m)
    exact (filterMapSnd st.metas) ▸ h1
  · decide

/-- Claim C8: `POST /upload-pdf` with no file and `POST /upload-pdf-base64`
with `pdfData` missing each return 400, and the store state is unchanged
(nothing is written, and the 400 body carries no identifier). -/
theorem c8_missing_input_400 (st : Store) (oName bName : Option String) (u : String)
    (now : Nat) (base : String) :
    uploadPdf st none oName bName u now base = (⟨400, .errorMsg "No PDF file provided"⟩, st) ∧
    uploadPdfBase64 st none bName oName u now base = (⟨400, .errorMsg "No PDF data provided"⟩, st) :=
  ⟨rfl, rfl⟩

/-- Claim C9, counterexample: the S3 storage keys carry extensions. After
an upload with id `x` the blob is not under `pdfs/x` (the key the claim
names) but under `pdfs/x.pdf`, and the metadata is not under `metadata/x`
but under `metadata/x.json`. -/
theorem c9_key_scheme_counterexample :
    slookup (uploadPdf emptyStore (some ⟨[7], 1, "application/pdf"⟩) none none "x" 0 "h").2.blobs
      "pdfs/x" = none ∧
    slookup (uploadPdf emptyStore (some ⟨[7], 1, "application/pdf"⟩) none none "x" 0 "h").2.blobs
      "pdfs/x.pdf" = some [7] ∧
    slookup (uploadPdf emptyStore (some ⟨[7], 1, "application/pdf"⟩) none none "x" 0 "h").2.metas
      "metadata/x" = none ∧
    ¬(slookup (uploadPdf emptyStore (some ⟨[7], 1, "application/pdf"⟩) none none "x" 0 "h").2.metas
      "metadata/x.json" = none) := by
  refine ⟨by decide, by decide, by decide, by decide⟩

/-- Claim C9, amended: the blob is stored under `pdfs/<id>.pdf` and the
metadata under `metadata/<id>.json` (the filesystem variant uses files
`<id>.pdf` and `<id>.json`), and retrieval and delete address the store
through the same derived keys: after an upload the blob and metadata are
found under those keys, `GET /pdf/<id>` succeeds, and after a delete both
keys are gone. -/
theorem c9_key_scheme_amended (st : Store) (f : UploadedFile) (oName bName : Option String)
    (u : String) (now : Nat) (base : String) :
    pdfKeyOf u = "pdfs/" ++ u ++ ".pdf" ∧
    metadataKeyOf u = "metadata/" ++ u ++ ".json" ∧
    fsPdfFileOf u = u ++ ".pdf" ∧
    fsMetaFileOf u = u ++ ".json" ∧
    slookup (uploadPdf st (some f) oName bName u now base).2.blobs (pdfKeyOf u)
      = some f.buffer ∧
    (∃ m, slookup (uploadPdf st (some f) oName bName u now base).2.metas (metadataKeyOf u)
      = some m) ∧
    (getPdf (uploadPdf st (some f) oName bName u now base).2 u false).status = 200 ∧
    slookup (deletePdf (uploadPdf st (some f) oName bName u now base).2 u).2.blobs
      (pdfKeyOf u) = none ∧
    slookup (deletePdf (uploadPdf st (some f) oName bName u now base).2 u).2.metas
      (metadataKeyOf u) = none := by
  refine ⟨rfl, rfl, rfl, rfl, by simp [uploadPdf, slookup],
    ⟨⟨u, jsOrElse oName "purchase-agreement.pdf", jsOrElse bName "Unknown", now, f.size,
      f.mimetype⟩, by simp [uploadPdf, slookup]⟩,
    by simp [getPdf, uploadPdf, slookup], by simp [deletePdf, slookup_serase],
    by simp [deletePdf, slookup_serase]⟩

/-- Claim C10: `DELETE /admin/pdf/<id>` responds with success for every
store state and id — including an id never uploaded or already deleted —
and never returns 404: S3 `DeleteObject` succeeds on absent keys and the
handler has no 404 branch. -/
theorem c10_delete_absent_success (st : Store) (id : String) :
    (deletePdf st id).1 = ⟨200, .deleteOk "PDF deleted successfully" id⟩ ∧
    (deletePdf st id).1.status = 200 ∧ ¬((deletePdf st id).1.status = 404) := by
  refine ⟨rfl, rfl, by simp [deletePdf]⟩
